import Mathlib

/-!
# PaperCal133: month grid, day content and duty cycle of `src/main.cpp`

A shallow embedding of `setup`, `loop`, `showCalendar` and `shutdown`.

* C `int` values are `Int`; `/` and `%` of C are `Int.tdiv` and `Int.tmod`
  (truncation toward zero). Where a result can leave the 32-bit range
  (`bootCount++`, the sleep delay) it is wrapped with `wrapInt32`.
* The two sprites are not modelled as bitmaps: every drawing call is recorded,
  in program order, as a `DrawOp` naming the sprite it is issued on.
* Everything the program only consumes (storage card, wall clock, wake cause,
  panel driver, the `PCEvent` class, font metrics, the panel size macros of
  `epd13in3b.h`) is a field of `Env`.
* The parsing of `settings.txt`, the WiFi connection, NTP set-up, the network
  fetches of `PCEvent::loadICalendar` and the holiday cache key of the
  preference store do not touch any state recorded here and are left out;
  calls to `delay` and `digitalWrite` are left out as well.
-/

namespace PaperCal

/-! ## Macro constants of main.cpp -/

def HEADER_HEIGHT : Int := 10
def FOOTER_HEIGHT : Int := 20
def COLUMN_WIDTH : Int := 137
def DAY_HEIGHT : Int := 42
def WHITE : Int := 255
def BLACK : Int := 0
def SMALL_FONT_HEIGHT : Int := 16
def uS_TO_S_FACTOR : Int := 1000000

/-! ## Machine integers -/

/-- Value of a mathematical integer stored in a 32-bit two's-complement `int`. -/
def wrapInt32 (x : Int) : Int := (x + 2147483648) % 4294967296 - 2147483648

/-- Value of a mathematical integer converted to `unsigned long long`. -/
def wrapUInt64 (x : Int) : Int := x % 18446744073709551616

/-! ## Grid geometry (main.cpp lines 259-262 and 285-286) -/

/-- The value of `numberOfRows`: `(firstDayOfWeek + numberOfDays - 1) / 7 + 1`. -/
def numberOfRows (firstDayOfWeek numberOfDays : Int) : Int :=
  (firstDayOfWeek + numberOfDays - 1).tdiv 7 + 1

/-- The value of `rowHeight`:
`(EPD_HEIGHT - (HEADER_HEIGHT + FOOTER_HEIGHT)) / numberOfRows`. -/
def rowHeight (epdHeight rows : Int) : Int :=
  (epdHeight - (HEADER_HEIGHT + FOOTER_HEIGHT)).tdiv rows

/-- The value of `row` for day `i`: `(firstDayOfWeek + i - 1) / 7`. -/
def row (firstDayOfWeek i : Int) : Int := (firstDayOfWeek + i - 1).tdiv 7

/-- The value of `column` for day `i`: `(6 + firstDayOfWeek + i) % 7`. -/
def column (firstDayOfWeek i : Int) : Int := (6 + firstDayOfWeek + i).tmod 7

/-! ## Drawing surface -/

/-- The two sprites (bit planes): `blackSprite` is the primary ink,
`redSprite` the accent ink. -/
inductive Sprite where
  | blackSprite
  | redSprite
  deriving DecidableEq, Repr

/-- One drawing call, with the sprite it is issued on. `printDay` stands for the
sequence `setFont(LARGE_FONT); setTextColor(c); setCursor(x, y); printf("%d", i)`
and `print` for `setCursor(x, y); print(text)` in the small font. -/
inductive DrawOp where
  | fillScreen (s : Sprite) (color : Int)
  | drawFastHLine (s : Sprite) (x y w color : Int)
  | drawFastVLine (s : Sprite) (x y h color : Int)
  | fillRect (s : Sprite) (x y w h color : Int)
  | printDay (s : Sprite) (x y textColor i : Int)
  | setClipRect (s : Sprite) (x y w h : Int)
  | print (s : Sprite) (x y : Int) (text : String)
  | clearClipRect (s : Sprite)
  deriving DecidableEq, Repr

/-- The part of a `PCEvent` object read by main.cpp: `getTitle()` and the
`isHolidayEvent` member. -/
structure PCEvent where
  title : String
  isHolidayEvent : Bool
  deriving DecidableEq, Repr

/-- The static interface of the `PCEvent` class as main.cpp calls it, after
`setTimeInfo`, `setHolidayCacheString` and the `loadICalendar` calls, together
with the two date helpers `dayOfWeek` and `numberOfDaysInMonth`. -/
structure Calendar where
  currentYear : Int
  currentMonth : Int
  currentDay : Int
  dayOfWeek : Int → Int → Int → Int
  numberOfDaysInMonth : Int → Int → Int
  numberOfHolidaysInDayOfThisMonth : Int → Int
  holidaysInDayOfThisMonth : Int → List PCEvent
  eventsInDayOfThisMonth : Int → List PCEvent
  numberOfEventsInThisMonth : Int

/-- The string literal prepended to every event title (line 325), byte for byte
as it stands in the source file. -/
def bullet : String := "ãƒ»"

/-- The sprite selected at line 323 for one event entry. -/
def eventSprite (event : PCEvent) : Sprite :=
  if event.isHolidayEvent then Sprite.redSprite else Sprite.blackSprite

/-- The loop of lines 320-329: one `print` per entry of `eventsInToday`, with
the counter `i` starting at the given value and a `break` once `i >= 3` after
the increment. -/
def drawEvents (col rw rh : Int) : Int → List PCEvent → List DrawOp
  | _, [] => []
  | i, event :: rest =>
    let op := DrawOp.print (eventSprite event) (col * COLUMN_WIDTH + 2)
      (rw * rh + DAY_HEIGHT + HEADER_HEIGHT + 4 + SMALL_FONT_HEIGHT * i)
      (bullet ++ event.title)
    if i + 1 ≥ 3 then [op] else op :: drawEvents col rw rh (i + 1) rest

/-- The flag `holiday` of line 287. -/
def holiday (cal : Calendar) (firstDayOfWeek i : Int) : Bool :=
  column firstDayOfWeek i == 0 || column firstDayOfWeek i == 6
    || decide (cal.numberOfHolidaysInDayOfThisMonth i > 0)

/-- The sprite selected at line 288, on which the day number is drawn. -/
def daySprite (cal : Calendar) (firstDayOfWeek i : Int) : Sprite :=
  if holiday cal firstDayOfWeek i then Sprite.redSprite else Sprite.blackSprite

/-- The list `eventsInToday` built at lines 306-310. -/
def eventsInToday (cal : Calendar) (i : Int) : List PCEvent :=
  cal.holidaysInDayOfThisMonth i ++ cal.eventsInDayOfThisMonth i

/-- One iteration of the day loop (lines 285-332) for day `i`. -/
def drawDay (cal : Calendar) (textWidth : Int → Int) (firstDayOfWeek rh day i : Int) :
    List DrawOp :=
  let rw := row firstDayOfWeek i
  let col := column firstDayOfWeek i
  let selectedSprite := daySprite cal firstDayOfWeek i
  let fill :=
    if day = i then
      [DrawOp.fillRect selectedSprite (col * COLUMN_WIDTH) (rw * rh + HEADER_HEIGHT)
        COLUMN_WIDTH DAY_HEIGHT BLACK]
    else []
  let dayColor := if day = i then WHITE else BLACK
  let dayWidth := textWidth i
  let today := eventsInToday cal i
  fill
    ++ [DrawOp.printDay selectedSprite (col * COLUMN_WIDTH + (COLUMN_WIDTH - dayWidth).tdiv 2)
          (rw * rh + 4 + HEADER_HEIGHT) dayColor i,
        DrawOp.setClipRect Sprite.blackSprite (col * COLUMN_WIDTH)
          (rw * rh + DAY_HEIGHT + HEADER_HEIGHT) COLUMN_WIDTH (rh - DAY_HEIGHT),
        DrawOp.setClipRect Sprite.redSprite (col * COLUMN_WIDTH)
          (rw * rh + DAY_HEIGHT + HEADER_HEIGHT) COLUMN_WIDTH (rh - DAY_HEIGHT)]
    ++ (if today.length > 0 then drawEvents col rw rh 0 today else [])
    ++ [DrawOp.clearClipRect Sprite.blackSprite, DrawOp.clearClipRect Sprite.redSprite]

/-- The values `1, 2, ..., n` of a loop counter `for (int i = 1; i <= n; i++)`. -/
def countTo (n : Int) : List Int :=
  (List.range n.toNat).map (fun k => (k : Int) + 1)

/-- The event text lines among a list of drawing calls: sprite and text of every
`print`. -/
def textLines : List DrawOp → List (Sprite × String)
  | [] => []
  | DrawOp.print s _ _ text :: ops => (s, text) :: textLines ops
  | _ :: ops => textLines ops

/-- The sprites on which a day number is printed among a list of drawing calls. -/
def dayNumberSprites : List DrawOp → List Sprite
  | [] => []
  | DrawOp.printDay s _ _ _ _ :: ops => s :: dayNumberSprites ops
  | _ :: ops => dayNumberSprites ops

/-! ## Wall clock and sleep delay -/

/-- The fields of `struct tm` read by main.cpp. -/
structure Tm where
  tm_hour : Int
  tm_min : Int
  tm_sec : Int
  deriving DecidableEq, Repr

/-- Seconds elapsed since local midnight, the subtrahend of line 400. -/
def secondsSinceLocalMidnight (t : Tm) : Int :=
  t.tm_hour * 3600 + t.tm_min * 60 + t.tm_sec

/-- The argument of `shutdown` at line 400:
`24 * 3600 - (tm_hour * 3600 + tm_min * 60 + tm_sec) + 300`, as an `int`. -/
def sleepSeconds (t : Tm) : Int :=
  wrapInt32 (24 * 3600 - (t.tm_hour * 3600 + t.tm_min * 60 + t.tm_sec) + 300)

/-- The argument of `esp_sleep_enable_timer_wakeup` at line 432: the `int` is
converted to `unsigned long long` and multiplied by `uS_TO_S_FACTOR`. -/
def timerWakeupMicros (wakeUpSeconds : Int) : Int :=
  wrapUInt64 (wrapUInt64 wakeUpSeconds * uS_TO_S_FACTOR)

/-! ## Program state and environment -/

/-- The values of `esp_sleep_wakeup_cause_t`. -/
inductive WakeupCause where
  | ESP_SLEEP_WAKEUP_UNDEFINED
  | ESP_SLEEP_WAKEUP_ALL
  | ESP_SLEEP_WAKEUP_EXT0
  | ESP_SLEEP_WAKEUP_EXT1
  | ESP_SLEEP_WAKEUP_TIMER
  | ESP_SLEEP_WAKEUP_TOUCHPAD
  | ESP_SLEEP_WAKEUP_ULP
  | ESP_SLEEP_WAKEUP_GPIO
  | ESP_SLEEP_WAKEUP_UART
  deriving DecidableEq, Repr

/-- The messages written with `log_printf`. -/
inductive LogMsg where
  | cardMountFailed
  | noCardAttached
  | waitingGetLocalTime
  | ePaperInitFailed (initResult : Int)
  deriving DecidableEq, Repr

/-- What one wake cycle receives from outside the program. `getLocalTime k` is
the outcome of the call to `getLocalTime` made after `k` earlier calls: `none`
when it returns false, else the time it stores. -/
structure Env where
  sdBegin : Bool
  cardNone : Bool
  settingFile : Bool
  wakeupCause : WakeupCause
  getLocalTime : Nat → Option Tm
  epdInit : Int
  EPD_WIDTH : Int
  EPD_HEIGHT : Int
  cal : Calendar
  textWidth : Int → Int
  freeHeap : Int

/-- The globals `loaded` and `bootCount` of main.cpp, the `Boot` key of the
preference store, and a record of the effects of the cycle: calls of
`getLocalTime`, drawing calls, sprites handed to `Displaypart`, log messages,
the GPIO wake source, the armed timer (microseconds) and the argument of
`shutdown` once it has been called. -/
structure State where
  loaded : Bool
  bootCount : Int
  prefBoot : Option Int
  clockCalls : Nat
  ops : List DrawOp
  displayed : List Sprite
  logs : List LogMsg
  gpioWakeup : Bool
  timerWakeup : Option Int
  shutdown : Option Int

/-- The state at power-on or wake: globals are zero-initialised, only the
preference store survives deep sleep. -/
def boot (prefBoot : Option Int) : State :=
  { loaded := false, bootCount := 0, prefBoot := prefBoot, clockCalls := 0, ops := [],
    displayed := [], logs := [], gpioWakeup := false, timerWakeup := none, shutdown := none }

/-- The switch of lines 181-193 applied to the value read by
`pref.getInt(bootCountKey, 0)`. -/
def countBoot (cause : WakeupCause) (bootCount : Int) : Int :=
  match cause with
  | WakeupCause.ESP_SLEEP_WAKEUP_TIMER => wrapInt32 (bootCount + 1)
  | _ => 0

/-- The function `setup`. -/
def setup (env : Env) (s : State) : State :=
  if !env.sdBegin then
    { s with logs := s.logs ++ [LogMsg.cardMountFailed] }
  else if env.cardNone then
    { s with logs := s.logs ++ [LogMsg.noCardAttached] }
  else
    let s1 :=
      if env.settingFile then
        { s with bootCount := countBoot env.wakeupCause (s.prefBoot.getD 0) }
      else s
    { s1 with gpioWakeup := true }

/-- The function `shutdown`; `esp_deep_sleep_start` does not return. -/
def shutdown (wakeUpSeconds : Int) (s : State) : State :=
  { s with gpioWakeup := false, timerWakeup := some (timerWakeupMicros wakeUpSeconds),
           shutdown := some wakeUpSeconds }

/-- Two-digit field of the `%02d` conversion. -/
def pad2 (n : Int) : String :=
  if 0 ≤ n ∧ n < 10 then "0" ++ toString n else toString n

/-- The footer text `logString` (lines 336-361; `LOG_VOLTAGE` is false and
`LOG_HEAP` is true). -/
def logString (env : Env) (timeinfo : Tm) (bootCount : Int) : String :=
  toString env.cal.currentYear ++ "/" ++ toString env.cal.currentMonth ++ "/"
    ++ toString env.cal.currentDay ++ " " ++ pad2 timeinfo.tm_hour ++ ":"
    ++ pad2 timeinfo.tm_min ++ ":" ++ pad2 timeinfo.tm_sec
    ++ ", Events:" ++ toString env.cal.numberOfEventsInThisMonth
    ++ ", Boot:" ++ toString bootCount
    ++ ", Heap:" ++ toString env.freeHeap

/-- The drawing calls of `showCalendar` up to the footer (lines 259-333 and
376-378), in program order. -/
def render (env : Env) (timeinfo : Tm) (bootCount : Int) : List DrawOp :=
  let year := env.cal.currentYear
  let month := env.cal.currentMonth
  let day := env.cal.currentDay
  let firstDayOfWeek := env.cal.dayOfWeek year month 1
  let numberOfDays := env.cal.numberOfDaysInMonth year month
  let rows := numberOfRows firstDayOfWeek numberOfDays
  let rh := rowHeight env.EPD_HEIGHT rows
  let lineHeight := rows * rh
  [DrawOp.fillScreen Sprite.blackSprite WHITE, DrawOp.fillScreen Sprite.redSprite WHITE]
    ++ (countTo rows).map (fun i =>
          DrawOp.drawFastHLine Sprite.blackSprite 0 (i * rh + HEADER_HEIGHT) env.EPD_WIDTH BLACK)
    ++ (countTo 6).map (fun i =>
          DrawOp.drawFastVLine Sprite.blackSprite (i * COLUMN_WIDTH) HEADER_HEIGHT lineHeight BLACK)
    ++ (countTo numberOfDays).flatMap (fun i =>
          drawDay env.cal env.textWidth firstDayOfWeek rh day i)
    ++ [DrawOp.print Sprite.blackSprite 8 (env.EPD_HEIGHT - FOOTER_HEIGHT)
          (logString env timeinfo bootCount)]

/-- The function `showCalendar` (`EPD_ENABLE` is true, `LOG_ENABLE` is false). -/
def showCalendar (env : Env) (s : State) : State :=
  match env.getLocalTime s.clockCalls with
  | none =>
    { s with clockCalls := s.clockCalls + 1, logs := s.logs ++ [LogMsg.waitingGetLocalTime] }
  | some timeinfo =>
    let s1 : State :=
      { s with clockCalls := s.clockCalls + 1,
               ops := s.ops ++ render env timeinfo s.bootCount,
               prefBoot := some s.bootCount }
    if env.epdInit ≠ 0 then
      { s1 with logs := s1.logs ++ [LogMsg.ePaperInitFailed env.epdInit] }
    else
      shutdown (sleepSeconds timeinfo)
        { s1 with displayed := s1.displayed ++ [Sprite.blackSprite, Sprite.redSprite],
                  loaded := true }

/-- One pass of the function `loop`. Once `shutdown` has put the chip into deep
sleep no further code runs. -/
def loop (env : Env) (s : State) : State :=
  if s.shutdown.isSome then s
  else if !s.loaded then
    let s1 := showCalendar env s
    if s1.shutdown.isSome then s1 else { s1 with loaded := true }
  else s

/-- The state after `n` passes of `loop`. -/
def passes (env : Env) : Nat → State → State
  | 0, s => s
  | n + 1, s => passes env n (loop env s)

/-- One wake cycle: the state after `setup` and `n` passes of `loop`, starting
from freshly initialised globals and the stored boot count `prefBoot`. -/
def wakeCycle (env : Env) (prefBoot : Option Int) (n : Nat) : State :=
  passes env n (setup env (boot prefBoot))

/-! ## Concrete inputs -/

/-- A month starting in column 6 whose day 1 has no holiday entry and one
ordinary event. -/
def saturdayCalendar : Calendar :=
  { currentYear := 2024, currentMonth := 6, currentDay := 20,
    dayOfWeek := fun _ _ _ => 6,
    numberOfDaysInMonth := fun _ _ => 30,
    numberOfHolidaysInDayOfThisMonth := fun _ => 0,
    holidaysInDayOfThisMonth := fun _ => [],
    eventsInDayOfThisMonth := fun i => if i = 1 then [{ title := "Lunch", isHolidayEvent := false }] else [],
    numberOfEventsInThisMonth := 1 }

/-- A month whose day 15 has two holiday entries and three ordinary events. -/
def busyCalendar : Calendar :=
  { currentYear := 2024, currentMonth := 5, currentDay := 2,
    dayOfWeek := fun _ _ _ => 3,
    numberOfDaysInMonth := fun _ _ => 31,
    numberOfHolidaysInDayOfThisMonth := fun i => if i = 15 then 2 else 0,
    holidaysInDayOfThisMonth := fun i =>
      if i = 15 then [{ title := "H1", isHolidayEvent := true }, { title := "H2", isHolidayEvent := true }]
      else [],
    eventsInDayOfThisMonth := fun i =>
      if i = 15 then [{ title := "E1", isHolidayEvent := false }, { title := "E2", isHolidayEvent := false },
        { title := "E3", isHolidayEvent := false }]
      else [],
    numberOfEventsInThisMonth := 3 }

/-- Width of a day number in the large font used for the concrete inputs. -/
def digitWidth (i : Int) : Int := if i < 10 then 26 else 52

/-- The local time 13:47:22. -/
def afternoon : Tm := { tm_hour := 13, tm_min := 47, tm_sec := 22 }

/-- A cycle in which the card mounts, settings.txt opens and the 960 x 680 panel
is attached; wake cause, clock and panel initialisation result are given. -/
def cycleEnv (cause : WakeupCause) (clock : Nat → Option Tm) (initResult : Int) : Env :=
  { sdBegin := true, cardNone := false, settingFile := true, wakeupCause := cause,
    getLocalTime := clock, epdInit := initResult, EPD_WIDTH := 960, EPD_HEIGHT := 680,
    cal := busyCalendar, textWidth := digitWidth, freeHeap := 200000 }

/-- A cycle woken by the timer in which the card fails to mount while the clock
still answers 13:47:22 and the panel initialises. -/
def noCardEnv : Env :=
  { cycleEnv WakeupCause.ESP_SLEEP_WAKEUP_TIMER (fun _ => some afternoon) 0 with
    sdBegin := false }

/-- A clock that fails on the first call and answers 13:47:22 on every later
call. -/
def lateClock (k : Nat) : Option Tm := if k = 0 then none else some afternoon

/-- A timer wake cycle in which the card fails to mount and the clock fails on
the first call. -/
def noCardNoClockEnv : Env :=
  { noCardEnv with getLocalTime := lateClock }

/-- The boot count left in the preference store by a wake cycle of one pass. -/
def storedAfter (env : Env) (prefBoot : Option Int) : Option Int :=
  (wakeCycle env prefBoot 1).prefBoot

/-- The boot counts left in the preference store by successive wake cycles with
the given wake causes, each cycle starting from what the previous one stored. -/
def storedSequence (clock : Nat → Option Tm) : List WakeupCause → Option Int → List (Option Int)
  | [], _ => []
  | cause :: rest, prefBoot =>
    storedAfter (cycleEnv cause clock 0) prefBoot
      :: storedSequence clock rest (storedAfter (cycleEnv cause clock 0) prefBoot)

/-! ## Arithmetic helpers -/

theorem numberOfRows_eq (f d : Int) (h : 1 ≤ f + d) :
    numberOfRows f d = (f + d - 1) / 7 + 1 := by
  unfold numberOfRows
  rw [Int.tdiv_eq_ediv (by omega) (by omega)]

theorem row_eq (f i : Int) (h : 1 ≤ f + i) : row f i = (f + i - 1) / 7 := by
  unfold row
  rw [Int.tdiv_eq_ediv (by omega) (by omega)]

theorem column_eq (f i : Int) (h : 0 ≤ 6 + f + i) : column f i = (6 + f + i) % 7 := by
  unfold column
  rw [Int.tmod_eq_emod (by omega) (by omega)]

theorem rowHeight_eq (H rows : Int) (hH : HEADER_HEIGHT + FOOTER_HEIGHT ≤ H) (hr : 0 ≤ rows) :
    rowHeight H rows = (H - 30) / rows := by
  unfold rowHeight
  simp only [HEADER_HEIGHT, FOOTER_HEIGHT] at hH ⊢
  rw [Int.tdiv_eq_ediv (by omega) hr]
  norm_num

theorem wrapInt32_eq (x : Int) (h0 : -2147483648 ≤ x) (h1 : x ≤ 2147483647) :
    wrapInt32 x = x := by
  unfold wrapInt32
  omega

/-! ## Grid geometry -/

/-- C5: for a first weekday column in 0..6 and a day count in 28..31 the row
count computed by showCalendar covers all cells (rows * 7 >= column + days), one
row fewer does not, no smaller integer does, and column 3 with 30 days gives 5
rows. -/
theorem numberOfRows_least (f d : Int) (hf0 : 0 ≤ f) (hf6 : f ≤ 6) (hd28 : 28 ≤ d)
    (hd31 : d ≤ 31) :
    numberOfRows f d * 7 ≥ f + d
      ∧ (numberOfRows f d - 1) * 7 < f + d
      ∧ (∀ r : Int, r * 7 ≥ f + d → numberOfRows f d ≤ r)
      ∧ numberOfRows 3 30 = 5 := by
  rw [numberOfRows_eq f d (by omega)]
  refine ⟨by omega, by omega, fun r hr => by omega, by decide⟩

theorem numberOfRows_least_witness :
    numberOfRows 0 28 * 7 ≥ 0 + 28
      ∧ (numberOfRows 0 28 - 1) * 7 < 0 + 28
      ∧ (∀ r : Int, r * 7 ≥ 0 + 28 → numberOfRows 0 28 ≤ r)
      ∧ numberOfRows 3 30 = 5 :=
  numberOfRows_least 0 28 (by decide) (by decide) (by decide) (by decide)

/-- C6: for a first weekday column f in 0..6 and any day count d, every day
number i in 1..d gets a column in 0..6 and a row in 0..rows-1 with
7 * row + column = f + i - 1, so the map from days to cells is injective and the
next day takes the next row-major cell; with f = 0 day 1 is in column 0 and day
7 in column 6. -/
theorem day_cells_row_major (f d : Int) (hf0 : 0 ≤ f) (hf6 : f ≤ 6) :
    (∀ i : Int, 1 ≤ i → i ≤ d →
        0 ≤ column f i ∧ column f i ≤ 6 ∧ 0 ≤ row f i ∧ row f i ≤ numberOfRows f d - 1
          ∧ 7 * row f i + column f i = f + i - 1)
      ∧ (∀ i j : Int, 1 ≤ i → i ≤ d → 1 ≤ j → j ≤ d →
          row f i = row f j → column f i = column f j → i = j)
      ∧ (∀ i : Int, 1 ≤ i → i < d →
          7 * row f (i + 1) + column f (i + 1) = 7 * row f i + column f i + 1)
      ∧ column 0 1 = 0 ∧ column 0 7 = 6 := by
  have cell : ∀ i : Int, 1 ≤ i → 7 * row f i + column f i = f + i - 1 := by
    intro i hi
    rw [row_eq f i (by omega), column_eq f i (by omega)]
    omega
  refine ⟨?_, ?_, ?_, by decide, by decide⟩
  · intro i hi hid
    rw [numberOfRows_eq f d (by omega)]
    have h := cell i hi
    rw [row_eq f i (by omega), column_eq f i (by omega)] at h ⊢
    omega
  · intro i j hi _ hj _ hrow hcol
    have h1 := cell i hi
    have h2 := cell j hj
    rw [hrow, hcol] at h1
    omega
  · intro i hi _
    have h1 := cell i hi
    have h2 := cell (i + 1) (by omega)
    omega

theorem day_cells_row_major_witness :
    (∀ i : Int, 1 ≤ i → i ≤ 31 →
        0 ≤ column 6 i ∧ column 6 i ≤ 6 ∧ 0 ≤ row 6 i ∧ row 6 i ≤ numberOfRows 6 31 - 1
          ∧ 7 * row 6 i + column 6 i = 6 + i - 1)
      ∧ (∀ i j : Int, 1 ≤ i → i ≤ 31 → 1 ≤ j → j ≤ 31 →
          row 6 i = row 6 j → column 6 i = column 6 j → i = j)
      ∧ (∀ i : Int, 1 ≤ i → i < 31 →
          7 * row 6 (i + 1) + column 6 (i + 1) = 7 * row 6 i + column 6 i + 1)
      ∧ column 0 1 = 0 ∧ column 0 7 = 6 :=
  day_cells_row_major 6 31 (by decide) (by decide)

/-- C10: for a panel height H >= HEADER_HEIGHT + FOOTER_HEIGHT, a first weekday
column in 0..6 and a day count in 28..31, with the row count and row height of
showCalendar, the bottom edge of every day cell and the last horizontal line
stay at or above H - FOOTER_HEIGHT, and the slack left above the footer is less
than the row count. -/
theorem grid_stays_above_footer (H f d : Int) (hH : HEADER_HEIGHT + FOOTER_HEIGHT ≤ H)
    (hf0 : 0 ≤ f) (hf6 : f ≤ 6) (hd28 : 28 ≤ d) (hd31 : d ≤ 31) :
    (∀ i : Int, 1 ≤ i → i ≤ d →
        row f i * rowHeight H (numberOfRows f d) + HEADER_HEIGHT
            + rowHeight H (numberOfRows f d) ≤ H - FOOTER_HEIGHT)
      ∧ numberOfRows f d * rowHeight H (numberOfRows f d) + HEADER_HEIGHT ≤ H - FOOTER_HEIGHT
      ∧ H - FOOTER_HEIGHT
          - (numberOfRows f d * rowHeight H (numberOfRows f d) + HEADER_HEIGHT)
            < numberOfRows f d := by
  have hrows : 4 ≤ numberOfRows f d := by
    rw [numberOfRows_eq f d (by omega)]; omega
  rw [rowHeight_eq H _ hH (by omega)]
  simp only [HEADER_HEIGHT, FOOTER_HEIGHT] at hH ⊢
  generalize hR : numberOfRows f d = R at hrows ⊢
  have hdm := Int.ediv_add_emod (H - 30) R
  have hm0 := Int.emod_nonneg (H - 30) (show R ≠ 0 by omega)
  have hmlt := Int.emod_lt_of_pos (H - 30) (show 0 < R by omega)
  have hq0 : 0 ≤ (H - 30) / R := Int.ediv_nonneg (by omega) (by omega)
  refine ⟨?_, by omega, by omega⟩
  intro i hi hid
  have hrow : row f i ≤ R - 1 := by
    rw [← hR, numberOfRows_eq f d (by omega), row_eq f i (by omega)]; omega
  have hmul : row f i * ((H - 30) / R) ≤ (R - 1) * ((H - 30) / R) :=
    mul_le_mul_of_nonneg_right hrow hq0
  have hexp : (R - 1) * ((H - 30) / R) = R * ((H - 30) / R) - (H - 30) / R := by ring
  omega

theorem grid_stays_above_footer_witness :
    (∀ i : Int, 1 ≤ i → i ≤ 30 →
        row 3 i * rowHeight 680 (numberOfRows 3 30) + HEADER_HEIGHT
            + rowHeight 680 (numberOfRows 3 30) ≤ 680 - FOOTER_HEIGHT)
      ∧ numberOfRows 3 30 * rowHeight 680 (numberOfRows 3 30) + HEADER_HEIGHT
          ≤ 680 - FOOTER_HEIGHT
      ∧ 680 - FOOTER_HEIGHT
          - (numberOfRows 3 30 * rowHeight 680 (numberOfRows 3 30) + HEADER_HEIGHT)
            < numberOfRows 3 30 :=
  grid_stays_above_footer 680 3 30 (by decide) (by decide) (by decide) (by decide) (by decide)

/-! ## Day content -/

theorem textLines_append (xs ys : List DrawOp) :
    textLines (xs ++ ys) = textLines xs ++ textLines ys := by
  induction xs with
  | nil => rfl
  | cons op ops ih => cases op <;> simp [textLines, ih]

theorem dayNumberSprites_append (xs ys : List DrawOp) :
    dayNumberSprites (xs ++ ys) = dayNumberSprites xs ++ dayNumberSprites ys := by
  induction xs with
  | nil => rfl
  | cons op ops ih => cases op <;> simp [dayNumberSprites, ih]

theorem textLines_drawEvents (col rw rh : Int) (today : List PCEvent) :
    ∀ (k : Nat) (i : Int), i + k = 3 → 1 ≤ k →
      textLines (drawEvents col rw rh i today)
        = (today.take k).map (fun e => (eventSprite e, bullet ++ e.title)) := by
  induction today with
  | nil => intro k i _ _; simp [drawEvents, textLines]
  | cons e rest ih =>
    intro k i hik hk
    obtain ⟨m, rfl⟩ : ∃ m, k = m + 1 := ⟨k - 1, by omega⟩
    by_cases h : i + 1 ≥ 3
    · have hm : m = 0 := by omega
      subst hm
      simp [drawEvents, textLines, h]
    · have := ih m (i + 1) (by push_cast at hik ⊢; omega) (by omega)
      simp [drawEvents, textLines, h, this]

theorem dayNumberSprites_drawEvents (col rw rh : Int) (today : List PCEvent) :
    ∀ i : Int, dayNumberSprites (drawEvents col rw rh i today) = [] := by
  induction today with
  | nil => intro i; simp [drawEvents, dayNumberSprites]
  | cons e rest ih =>
    intro i
    by_cases h : i + 1 ≥ 3
    · simp [drawEvents, dayNumberSprites, h]
    · simp [drawEvents, dayNumberSprites, h, ih]

theorem textLines_drawDay (cal : Calendar) (textWidth : Int → Int) (f rh day i : Int) :
    textLines (drawDay cal textWidth f rh day i)
      = ((eventsInToday cal i).take 3).map (fun e => (eventSprite e, bullet ++ e.title)) := by
  unfold drawDay
  simp only [textLines_append]
  have hev : textLines (if (eventsInToday cal i).length > 0
        then drawEvents (column f i) (row f i) rh 0 (eventsInToday cal i) else [])
      = ((eventsInToday cal i).take 3).map (fun e => (eventSprite e, bullet ++ e.title)) := by
    split
    · exact textLines_drawEvents _ _ _ _ 3 0 (by norm_num) (by norm_num)
    · next h =>
      have : eventsInToday cal i = [] := List.length_eq_zero.mp (by omega)
      simp [this, textLines]
  rw [hev]
  split <;> simp [textLines]

theorem dayNumberSprites_drawDay (cal : Calendar) (textWidth : Int → Int) (f rh day i : Int) :
    dayNumberSprites (drawDay cal textWidth f rh day i) = [daySprite cal f i] := by
  unfold drawDay
  simp only [dayNumberSprites_append]
  have hev : dayNumberSprites (if (eventsInToday cal i).length > 0
        then drawEvents (column f i) (row f i) rh 0 (eventsInToday cal i) else []) = [] := by
    split
    · exact dayNumberSprites_drawEvents _ _ _ _ _
    · rfl
  rw [hev]
  split <;> simp [dayNumberSprites]

/-- C1 (as stated, refuted): in a month starting in column 6, day 1 has no
holiday entry and one ordinary event; its number is printed on the red sprite
but its event line is printed on the black sprite, so not every text line of
the day is on the sprite of the day number. -/
theorem text_line_not_on_day_sprite :
    dayNumberSprites (drawDay saturdayCalendar digitWidth 6 130 20 1) = [Sprite.redSprite]
      ∧ ¬ ∀ line ∈ textLines (drawDay saturdayCalendar digitWidth 6 130 20 1),
          line.1 = daySprite saturdayCalendar 6 1 := by
  decide

/-- C1 (amended): for every day i the number is printed once, on the red sprite
if the column is 0 or 6 or the day has a positive holiday count and on the black
sprite otherwise, while every event text line is printed on the red sprite if
its own event entry is holiday-flagged and on the black sprite otherwise,
whatever the sprite of the day number is. -/
theorem text_line_sprite_is_event_flag (cal : Calendar) (textWidth : Int → Int)
    (f rh day i : Int) :
    dayNumberSprites (drawDay cal textWidth f rh day i)
        = [if column f i = 0 ∨ column f i = 6 ∨ cal.numberOfHolidaysInDayOfThisMonth i > 0
            then Sprite.redSprite else Sprite.blackSprite]
      ∧ textLines (drawDay cal textWidth f rh day i)
        = ((cal.holidaysInDayOfThisMonth i ++ cal.eventsInDayOfThisMonth i).take 3).map
            (fun e => (if e.isHolidayEvent then Sprite.redSprite else Sprite.blackSprite,
              bullet ++ e.title)) := by
  refine ⟨?_, ?_⟩
  · rw [dayNumberSprites_drawDay]
    simp only [daySprite, holiday, Bool.or_eq_true, beq_iff_eq, decide_eq_true_eq, or_assoc]
  · rw [textLines_drawDay]
    rfl

/-! ## Duty cycle -/

theorem setup_fresh (env : Env) (stored : Option Int) :
    (setup env (boot stored)).loaded = false
      ∧ (setup env (boot stored)).shutdown = none
      ∧ (setup env (boot stored)).clockCalls = 0
      ∧ (setup env (boot stored)).ops = []
      ∧ (setup env (boot stored)).displayed = []
      ∧ (setup env (boot stored)).timerWakeup = none
      ∧ (setup env (boot stored)).prefBoot = stored := by
  unfold setup boot
  split_ifs <;> simp

theorem loop_idle (env : Env) (s : State) (h : s.shutdown.isSome = true ∨ s.loaded = true) :
    loop env s = s := by
  unfold loop
  rcases h with h | h
  · simp [h]
  · simp [h]

theorem passes_idle (env : Env) (n : Nat) (s : State)
    (h : s.shutdown.isSome = true ∨ s.loaded = true) : passes env n s = s := by
  induction n with
  | zero => rfl
  | succ n ih => rw [passes, loop_idle env s h, ih]

theorem loop_fresh (env : Env) (s : State) (hl : s.loaded = false) (hs : s.shutdown = none) :
    loop env s = if (showCalendar env s).shutdown.isSome then showCalendar env s
      else { showCalendar env s with loaded := true } := by
  unfold loop
  simp [hl, hs]

theorem passes_fresh (env : Env) (n : Nat) (s : State) (hl : s.loaded = false)
    (hs : s.shutdown = none) : passes env (n + 1) s = loop env s := by
  rw [passes]
  apply passes_idle
  rw [loop_fresh env s hl hs]
  split
  · next h => exact Or.inl h
  · exact Or.inr rfl

theorem showCalendar_no_time (env : Env) (s : State) (h : env.getLocalTime s.clockCalls = none) :
    showCalendar env s
      = { s with clockCalls := s.clockCalls + 1,
                 logs := s.logs ++ [LogMsg.waitingGetLocalTime] } := by
  unfold showCalendar
  simp [h]

theorem showCalendar_init_failed (env : Env) (s : State) (t : Tm)
    (h : env.getLocalTime s.clockCalls = some t) (hi : env.epdInit ≠ 0) :
    showCalendar env s
      = { s with clockCalls := s.clockCalls + 1,
                 ops := s.ops ++ render env t s.bootCount,
                 prefBoot := some s.bootCount,
                 logs := s.logs ++ [LogMsg.ePaperInitFailed env.epdInit] } := by
  unfold showCalendar
  simp [h, hi]

theorem showCalendar_displayed (env : Env) (s : State) (t : Tm)
    (h : env.getLocalTime s.clockCalls = some t) (hi : env.epdInit = 0) :
    showCalendar env s
      = { s with clockCalls := s.clockCalls + 1,
                 ops := s.ops ++ render env t s.bootCount,
                 prefBoot := some s.bootCount,
                 displayed := s.displayed ++ [Sprite.blackSprite, Sprite.redSprite],
                 loaded := true,
                 gpioWakeup := false,
                 timerWakeup := some (timerWakeupMicros (sleepSeconds t)),
                 shutdown := some (sleepSeconds t) } := by
  unfold showCalendar shutdown
  simp [h, hi]

theorem wakeCycle_no_time (env : Env) (stored : Option Int) (n : Nat)
    (h : env.getLocalTime 0 = none) :
    wakeCycle env stored (n + 1)
      = { setup env (boot stored) with
            clockCalls := 1,
            logs := (setup env (boot stored)).logs ++ [LogMsg.waitingGetLocalTime],
            loaded := true } := by
  obtain ⟨hl, hs, hc, -⟩ := setup_fresh env stored
  unfold wakeCycle
  rw [passes_fresh env n _ hl hs, loop_fresh env _ hl hs,
    showCalendar_no_time env _ (by rw [hc]; exact h)]
  simp [hs, hc]

theorem wakeCycle_init_failed (env : Env) (stored : Option Int) (n : Nat) (t : Tm)
    (h : env.getLocalTime 0 = some t) (hi : env.epdInit ≠ 0) :
    wakeCycle env stored (n + 1)
      = { setup env (boot stored) with
            clockCalls := 1,
            ops := render env t (setup env (boot stored)).bootCount,
            prefBoot := some (setup env (boot stored)).bootCount,
            logs := (setup env (boot stored)).logs ++ [LogMsg.ePaperInitFailed env.epdInit],
            loaded := true } := by
  obtain ⟨hl, hs, hc, ho, -⟩ := setup_fresh env stored
  unfold wakeCycle
  rw [passes_fresh env n _ hl hs, loop_fresh env _ hl hs,
    showCalendar_init_failed env _ t (by rw [hc]; exact h) hi]
  simp [hs, hc, ho]

theorem wakeCycle_displayed (env : Env) (stored : Option Int) (n : Nat) (t : Tm)
    (h : env.getLocalTime 0 = some t) (hi : env.epdInit = 0) :
    wakeCycle env stored (n + 1)
      = { setup env (boot stored) with
            clockCalls := 1,
            ops := render env t (setup env (boot stored)).bootCount,
            prefBoot := some (setup env (boot stored)).bootCount,
            displayed := [Sprite.blackSprite, Sprite.redSprite],
            loaded := true,
            gpioWakeup := false,
            timerWakeup := some (timerWakeupMicros (sleepSeconds t)),
            shutdown := some (sleepSeconds t) } := by
  obtain ⟨hl, hs, hc, ho, hd, -⟩ := setup_fresh env stored
  unfold wakeCycle
  rw [passes_fresh env n _ hl hs, loop_fresh env _ hl hs,
    showCalendar_displayed env _ t (by rw [hc]; exact h) hi]
  simp [hc, ho, hd]

theorem setup_bootCount (env : Env) (stored : Option Int) (hsd : env.sdBegin = true)
    (hcard : env.cardNone = false) (hfile : env.settingFile = true) :
    (setup env (boot stored)).bootCount = countBoot env.wakeupCause (stored.getD 0) := by
  unfold setup boot
  simp [hsd, hcard, hfile]

theorem wakeCycle_prefBoot (env : Env) (stored : Option Int) (n : Nat) (t : Tm)
    (h : env.getLocalTime 0 = some t) :
    (wakeCycle env stored (n + 1)).prefBoot = some (setup env (boot stored)).bootCount := by
  by_cases hi : env.epdInit = 0
  · rw [wakeCycle_displayed env stored n t h hi]
  · rw [wakeCycle_init_failed env stored n t h hi]

/-- C3: when showCalendar reaches line 400 it calls shutdown with sleepSeconds =
86400 - (hour*3600 + min*60 + sec) + 300; for secondsSinceLocalMidnight in
0..86399 this value lies in 300..86700 and strictly decreases as
secondsSinceLocalMidnight grows; 13:47:22 gives 37058. -/
theorem sleepSeconds_decreasing_bounded :
    (∀ (env : Env) (s : State) (t : Tm), env.getLocalTime s.clockCalls = some t →
        env.epdInit = 0 → (showCalendar env s).shutdown = some (sleepSeconds t))
      ∧ (∀ t : Tm, 0 ≤ secondsSinceLocalMidnight t → secondsSinceLocalMidnight t ≤ 86399 →
          sleepSeconds t = 86400 - (t.tm_hour * 3600 + t.tm_min * 60 + t.tm_sec) + 300
            ∧ 300 ≤ sleepSeconds t ∧ sleepSeconds t ≤ 86700)
      ∧ (∀ t1 t2 : Tm, 0 ≤ secondsSinceLocalMidnight t1 →
          secondsSinceLocalMidnight t1 < secondsSinceLocalMidnight t2 →
          secondsSinceLocalMidnight t2 ≤ 86399 → sleepSeconds t2 < sleepSeconds t1)
      ∧ sleepSeconds afternoon = 37058 := by
  have key : ∀ t : Tm, 0 ≤ secondsSinceLocalMidnight t → secondsSinceLocalMidnight t ≤ 86399 →
      sleepSeconds t = 86400 - secondsSinceLocalMidnight t + 300 := by
    intro t h0 h1
    unfold sleepSeconds
    unfold secondsSinceLocalMidnight at h0 h1 ⊢
    rw [wrapInt32_eq _ (by omega) (by omega)]
    norm_num
  refine ⟨?_, ?_, ?_, by decide⟩
  · intro env s t h hi
    rw [showCalendar_displayed env s t h hi]
  · intro t h0 h1
    have hk := key t h0 h1
    unfold secondsSinceLocalMidnight at h0 h1 hk
    omega
  · intro t1 t2 h0 h12 h2
    rw [key t1 h0 (by omega), key t2 (by omega) h2]
    omega

theorem sleepSeconds_decreasing_bounded_witness :
    (sleepSeconds { tm_hour := 23, tm_min := 59, tm_sec := 59 } = 86400 - (23 * 3600 + 59 * 60 + 59) + 300
        ∧ 300 ≤ sleepSeconds { tm_hour := 23, tm_min := 59, tm_sec := 59 }
        ∧ sleepSeconds { tm_hour := 23, tm_min := 59, tm_sec := 59 } ≤ 86700)
      ∧ sleepSeconds afternoon < sleepSeconds { tm_hour := 0, tm_min := 0, tm_sec := 0 }
      ∧ (showCalendar (cycleEnv WakeupCause.ESP_SLEEP_WAKEUP_TIMER (fun _ => some afternoon) 0)
          (boot none)).shutdown = some (sleepSeconds afternoon) :=
  ⟨sleepSeconds_decreasing_bounded.2.1 { tm_hour := 23, tm_min := 59, tm_sec := 59 }
      (by decide) (by decide),
    sleepSeconds_decreasing_bounded.2.2.1 { tm_hour := 0, tm_min := 0, tm_sec := 0 } afternoon
      (by decide) (by decide) (by decide),
    sleepSeconds_decreasing_bounded.1 _ (boot none) afternoon rfl rfl⟩

/-- C4 (as stated, refuted): a timer wake cycle in which the card fails to mount
while the clock answers finds 3 in the preference store and leaves 0, not 4;
and a cold boot whose clock fails on the first call saves nothing, so the store
still holds 3 after five passes of loop, not 0. -/
theorem timer_wake_without_card_stores_zero :
    noCardEnv.wakeupCause = WakeupCause.ESP_SLEEP_WAKEUP_TIMER
      ∧ (wakeCycle noCardEnv (some 3) 1).prefBoot = some 0
      ∧ (wakeCycle noCardEnv (some 3) 1).prefBoot ≠ some (3 + 1)
      ∧ (wakeCycle (cycleEnv WakeupCause.ESP_SLEEP_WAKEUP_UNDEFINED lateClock 0)
          (some 3) 5).prefBoot = some 3 := by
  decide

/-- C4 (amended): in a wake cycle in which the card mounts, a card is attached
and settings.txt opens, so that setup loads the boot count, and in which
wall-clock time is available in the first pass of loop, so that showCalendar
reaches the save at line 372, the value left in the preference store is, when
the wake cause is the timer, the loaded value plus 1 computed as a 32-bit int,
which is exactly the loaded value plus 1 for every loaded int below 2147483647,
and 0 for any other wake cause; the causes other, timer, timer, other leave
0, 1, 2, 0. -/
theorem bootCount_persisted (env : Env) (stored : Option Int) (t : Tm) (n : Nat)
    (hsd : env.sdBegin = true) (hcard : env.cardNone = false) (hfile : env.settingFile = true)
    (htime : env.getLocalTime 0 = some t) :
    (env.wakeupCause = WakeupCause.ESP_SLEEP_WAKEUP_TIMER →
        (wakeCycle env stored (n + 1)).prefBoot = some (wrapInt32 (stored.getD 0 + 1)))
      ∧ (env.wakeupCause = WakeupCause.ESP_SLEEP_WAKEUP_TIMER →
          -2147483648 ≤ stored.getD 0 → stored.getD 0 < 2147483647 →
          (wakeCycle env stored (n + 1)).prefBoot = some (stored.getD 0 + 1))
      ∧ (env.wakeupCause ≠ WakeupCause.ESP_SLEEP_WAKEUP_TIMER →
          (wakeCycle env stored (n + 1)).prefBoot = some 0)
      ∧ storedSequence (fun _ => some afternoon)
          [WakeupCause.ESP_SLEEP_WAKEUP_UNDEFINED, WakeupCause.ESP_SLEEP_WAKEUP_TIMER,
            WakeupCause.ESP_SLEEP_WAKEUP_TIMER, WakeupCause.ESP_SLEEP_WAKEUP_EXT0] none
        = [some 0, some 1, some 2, some 0] := by
  have hp : (wakeCycle env stored (n + 1)).prefBoot
      = some (countBoot env.wakeupCause (stored.getD 0)) := by
    rw [wakeCycle_prefBoot env stored n t htime, setup_bootCount env stored hsd hcard hfile]
  refine ⟨?_, ?_, ?_, by decide⟩
  · intro hc
    rw [hp, hc]
    rfl
  · intro hc hlow hhigh
    rw [hp, hc]
    unfold countBoot
    simp only
    rw [wrapInt32_eq _ (by omega) (by omega)]
  · intro hc
    rw [hp]
    unfold countBoot
    cases hw : env.wakeupCause <;> simp_all

theorem bootCount_persisted_witness :
    (wakeCycle (cycleEnv WakeupCause.ESP_SLEEP_WAKEUP_TIMER (fun _ => some afternoon) 1)
        (some 41) 3).prefBoot = some 42
      ∧ (wakeCycle (cycleEnv WakeupCause.ESP_SLEEP_WAKEUP_GPIO (fun _ => some afternoon) 0)
          (some 41) 3).prefBoot = some 0 :=
  ⟨(bootCount_persisted (cycleEnv WakeupCause.ESP_SLEEP_WAKEUP_TIMER (fun _ => some afternoon) 1)
      (some 41) afternoon 2 rfl rfl rfl rfl).2.1 rfl (by decide) (by decide),
    (bootCount_persisted (cycleEnv WakeupCause.ESP_SLEEP_WAKEUP_GPIO (fun _ => some afternoon) 0)
      (some 41) afternoon 2 rfl rfl rfl rfl).2.2.1 (by decide)⟩

/-- C7 (code defect): in a timer wake cycle whose clock fails on the first call
and would answer on every later call, after any number of passes of loop from
the first on the flag loaded is true, getLocalTime has been called exactly once,
nothing has been drawn and shutdown has not been called: the pass is not
retried. -/
theorem clock_failure_not_retried :
    lateClock 0 = none ∧ lateClock 1 = some afternoon
      ∧ ∀ n : Nat,
        (wakeCycle (cycleEnv WakeupCause.ESP_SLEEP_WAKEUP_TIMER lateClock 0) (some 3)
            (n + 1)).loaded = true
          ∧ (wakeCycle (cycleEnv WakeupCause.ESP_SLEEP_WAKEUP_TIMER lateClock 0) (some 3)
              (n + 1)).clockCalls = 1
          ∧ (wakeCycle (cycleEnv WakeupCause.ESP_SLEEP_WAKEUP_TIMER lateClock 0) (some 3)
              (n + 1)).ops = []
          ∧ (wakeCycle (cycleEnv WakeupCause.ESP_SLEEP_WAKEUP_TIMER lateClock 0) (some 3)
              (n + 1)).shutdown = none := by
  refine ⟨rfl, rfl, fun n => ?_⟩
  obtain ⟨-, hs, -, ho, -⟩ :=
    setup_fresh (cycleEnv WakeupCause.ESP_SLEEP_WAKEUP_TIMER lateClock 0) (some 3)
  rw [wakeCycle_no_time _ _ n rfl]
  exact ⟨rfl, rfl, ho, hs⟩

/-- C8 (as stated, refuted): at 13:47:22 a cycle whose panel initialisation
returns 1 ends without any call of shutdown and with nothing sent to the
display, whereas the same cycle with a successful initialisation calls
shutdown(37058). -/
theorem init_failure_skips_shutdown :
    (wakeCycle (cycleEnv WakeupCause.ESP_SLEEP_WAKEUP_TIMER (fun _ => some afternoon) 1)
        none 1).shutdown = none
      ∧ (wakeCycle (cycleEnv WakeupCause.ESP_SLEEP_WAKEUP_TIMER (fun _ => some afternoon) 1)
          none 1).displayed = []
      ∧ (wakeCycle (cycleEnv WakeupCause.ESP_SLEEP_WAKEUP_TIMER (fun _ => some afternoon) 0)
          none 1).shutdown = some 37058
      ∧ (wakeCycle (cycleEnv WakeupCause.ESP_SLEEP_WAKEUP_TIMER (fun _ => some afternoon) 1)
          none 1).shutdown
        ≠ (wakeCycle (cycleEnv WakeupCause.ESP_SLEEP_WAKEUP_TIMER (fun _ => some afternoon) 0)
          none 1).shutdown := by
  decide

/-- C8 (amended): when wall-clock time is available and Epd::Init returns
non-zero, the cycle logs the failure and showCalendar returns at once: the
calendar has been drawn once and the boot count saved, but nothing is sent to
the display, shutdown is not called and no timer wake is armed; loop then sets
loaded, so showCalendar is not called again and the paint is not retried. -/
theorem init_failure_returns_without_sleep (env : Env) (stored : Option Int) (t : Tm)
    (n : Nat) (htime : env.getLocalTime 0 = some t) (hinit : env.epdInit ≠ 0) :
    (wakeCycle env stored (n + 1)).logs
        = (setup env (boot stored)).logs ++ [LogMsg.ePaperInitFailed env.epdInit]
      ∧ (wakeCycle env stored (n + 1)).ops = render env t (setup env (boot stored)).bootCount
      ∧ (wakeCycle env stored (n + 1)).prefBoot = some (setup env (boot stored)).bootCount
      ∧ (wakeCycle env stored (n + 1)).displayed = []
      ∧ (wakeCycle env stored (n + 1)).shutdown = none
      ∧ (wakeCycle env stored (n + 1)).timerWakeup = none
      ∧ (wakeCycle env stored (n + 1)).loaded = true
      ∧ (wakeCycle env stored (n + 1)).clockCalls = 1 := by
  obtain ⟨-, hs, -, -, hd, ht, -⟩ := setup_fresh env stored
  rw [wakeCycle_init_failed env stored n t htime hinit]
  exact ⟨rfl, rfl, rfl, hd, hs, ht, rfl, rfl⟩

theorem init_failure_returns_without_sleep_witness :
    (wakeCycle (cycleEnv WakeupCause.ESP_SLEEP_WAKEUP_TIMER (fun _ => some afternoon) 1)
        (some 3) 4).shutdown = none
      ∧ (wakeCycle (cycleEnv WakeupCause.ESP_SLEEP_WAKEUP_TIMER (fun _ => some afternoon) 1)
          (some 3) 4).clockCalls = 1 :=
  have h := init_failure_returns_without_sleep
    (cycleEnv WakeupCause.ESP_SLEEP_WAKEUP_TIMER (fun _ => some afternoon) 1) (some 3)
    afternoon 3 rfl (by decide)
  ⟨h.2.2.2.2.1, h.2.2.2.2.2.2.2⟩

/-- C9 (as stated, refuted): in a timer wake cycle in which the card fails to
mount while the clock answers and the panel initialises, the first pass of loop
draws the calendar, sends both sprites to the display and calls
shutdown(37058). -/
theorem missing_card_still_renders :
    noCardEnv.sdBegin = false
      ∧ (wakeCycle noCardEnv (some 3) 1).ops ≠ []
      ∧ (wakeCycle noCardEnv (some 3) 1).displayed = [Sprite.blackSprite, Sprite.redSprite]
      ∧ (wakeCycle noCardEnv (some 3) 1).shutdown = some 37058 := by
  decide

/-- C9 (amended): when the card fails to mount, no card is attached or
settings.txt cannot be opened, setup loads no boot count, and the cycle is
aborted before any rendering only if getLocalTime fails in the first pass of
loop: then after any number of passes nothing has been drawn, nothing has been
sent to the display and shutdown has not been armed. If getLocalTime succeeds in
the first pass and the panel initialises, the calendar is drawn, both sprites
are sent to the display and shutdown is called with the sleep delay. -/
theorem missing_prerequisite_cycle (env : Env) (stored : Option Int)
    (hpre : env.sdBegin = false ∨ env.cardNone = true ∨ env.settingFile = false) :
    (setup env (boot stored)).bootCount = 0
      ∧ (env.getLocalTime 0 = none → ∀ n : Nat,
          (wakeCycle env stored n).ops = [] ∧ (wakeCycle env stored n).displayed = []
            ∧ (wakeCycle env stored n).shutdown = none
            ∧ (wakeCycle env stored n).timerWakeup = none)
      ∧ (∀ t : Tm, env.getLocalTime 0 = some t → env.epdInit = 0 → ∀ n : Nat,
          (wakeCycle env stored (n + 1)).ops = render env t 0
            ∧ (wakeCycle env stored (n + 1)).displayed = [Sprite.blackSprite, Sprite.redSprite]
            ∧ (wakeCycle env stored (n + 1)).shutdown = some (sleepSeconds t)) := by
  obtain ⟨-, hs, -, ho, hd, ht, -⟩ := setup_fresh env stored
  have hb : (setup env (boot stored)).bootCount = 0 := by
    unfold setup boot
    rcases hpre with h | h | h
    · simp [h]
    · by_cases h1 : env.sdBegin = true <;> simp [h, h1]
    · by_cases h1 : env.sdBegin = true <;> by_cases h2 : env.cardNone = true <;> simp [h, h1, h2]
  refine ⟨hb, ?_, ?_⟩
  · intro hclock n
    cases n with
    | zero => exact ⟨ho, hd, hs, ht⟩
    | succ n =>
      rw [wakeCycle_no_time env stored n hclock]
      exact ⟨ho, hd, hs, ht⟩
  · intro t hclock hinit n
    rw [wakeCycle_displayed env stored n t hclock hinit]
    exact ⟨by simp [hb], rfl, rfl⟩

theorem missing_prerequisite_cycle_witness :
    (setup noCardNoClockEnv (boot (some 3))).bootCount = 0
      ∧ ((wakeCycle noCardNoClockEnv (some 3) 5).ops = []
        ∧ (wakeCycle noCardNoClockEnv (some 3) 5).displayed = []
        ∧ (wakeCycle noCardNoClockEnv (some 3) 5).shutdown = none
        ∧ (wakeCycle noCardNoClockEnv (some 3) 5).timerWakeup = none)
      ∧ (wakeCycle noCardEnv (some 3) 2).shutdown = some (sleepSeconds afternoon) :=
  ⟨(missing_prerequisite_cycle noCardNoClockEnv (some 3) (Or.inl rfl)).1,
    (missing_prerequisite_cycle noCardNoClockEnv (some 3) (Or.inl rfl)).2.1 rfl 5,
    ((missing_prerequisite_cycle noCardEnv (some 3) (Or.inl rfl)).2.2 afternoon rfl rfl 1).2.2⟩

/-! ## Text lines of a whole cycle -/

end PaperCal
